import Mathlib

/-!
# A verification model of the uk-midas-client download pipeline

This file gives a shallow embedding of the two source modules of the
uk-midas-client repository that carry the algorithmic content:

* `midas_client/session.py` — the authenticated transport (`MidasSession`,
  the module-level `get_csv`) and the BADC-CSV dialect decoder
  (`_read_badc_csv`);
* `midas_client/midas.py` — the metadata cache (`_fetch_meta`), the single
  station-year download (`download_station_year`) and the bulk orchestration
  loop (`download_locations`).

Two structural facts of the source shape the development:

* `get_csv` is defined at module level in `session.py`: its `def` sits at
  column 0, outside the `MidasSession` class body, which ends at the `token`
  property.  Consequently every `session.get_csv(...)` attribute access in
  `midas.py` — in `_fetch_meta`, in `download_station_year` and in
  `download_locations` — raises `AttributeError` at run time.  Those
  functions are embedded faithfully up to that point: the branches reachable
  before the failing attribute lookup (argument defaulting, configuration
  lookups, the `_META_CACHE` probe, the empty-`locations` check, the station
  row lookup) and the `AttributeError` where the source evaluates
  `session.get_csv`.
* `MidasSession.__init__` evaluates the `token` property (an authentication
  POST) before its credential guard, and the guard reads the never-assigned
  `self.user`, so the intended `RuntimeError` is unreachable.

Modelling conventions:

* Python floats (backoff delays, coordinates) are modelled as `ℚ`.
* A pandas `DataFrame` is modelled as a list of column names plus a list of
  rows of cell strings; cached station metadata is modelled as a list of
  `MetaRow` records with numeric fields already parsed.
* The network is modelled as pure per-URL response functions; the
  per-request transport behaviour (exceptions, status codes) is modelled
  attempt-by-attempt for `get_csv`.  The BallTree with the haversine metric
  is abstracted as a distance-function parameter; no reachable branch of
  `download_locations` consults it.
* Python exceptions are modelled with `Except` and the `PyErr` type;
  `time.sleep` calls are recorded in a trace rather than performed.
-/

namespace MidasClient

/-! ## Python string primitives

Kernel-reducible models of `str.strip`, `str.lower` and `str.split(sep)`
(for the one-character separators used by the source). -/

/-- Python `str.strip()`: drop leading and trailing whitespace. -/
def pyStrip (s : String) : String :=
  ⟨((s.data.dropWhile Char.isWhitespace).reverse.dropWhile Char.isWhitespace).reverse⟩

/-- Python `str.lower()`. -/
def pyLower (s : String) : String := ⟨s.data.map Char.toLower⟩

/-- Python `str.split(sep)` for a one-character separator (the source always
splits on the one-character `sep=","`). -/
def pySplit (sep : Char) (s : String) : List String :=
  (s.data.splitOn sep).map (fun cs => ⟨cs⟩)

/-- Python exceptions raised by the modelled code. -/
inductive PyErr where
  /-- `KeyError` (unknown dict key / missing DataFrame label). -/
  | keyError (key : String)
  /-- `RuntimeError` with its message. -/
  | runtimeError (msg : String)
  /-- `ValueError` with its message. -/
  | valueError (msg : String)
  /-- `StopIteration` from `next(buf)` on an exhausted iterator. -/
  | stopIteration
  /-- Failure of the token-exchange POST in `_refresh_token`
  (connection error, non-2xx status, or missing `access_token` field). -/
  | authError
  /-- `AttributeError`: access to an attribute the object does not have.
  Raised by every `session.get_csv` lookup in `midas.py`, because `get_csv`
  is a module-level function of `session.py`, not a `MidasSession` method;
  also raised by the `self.user` read in `MidasSession.__init__`. -/
  | attributeError (attr : String)
deriving DecidableEq, Repr

/-- A decoded tabular result (pandas `DataFrame`): column names and rows of
cell strings.  `df.empty` corresponds to `rows = []`. -/
structure DataFrame where
  colNames : List String
  rows : List (List String)
deriving DecidableEq, Repr

/-- pandas `DataFrame.empty` (the frames produced here are empty exactly when
they have no rows). -/
def DataFrame.isEmpty (df : DataFrame) : Bool := df.rows.isEmpty

/-! ## `_read_badc_csv` (session.py)

The Python code scans the raw text line by line for the first line whose
stripped, lower-cased content is `"data"`, takes the next line as the header,
and then re-reads the buffer with `pd.read_csv(..., skiprows=n+2)`, dropping
the final row with `.iloc[:-1]`.  Re-reading from the top while skipping the
first `n + 2` physical lines is the same as continuing with the lines after
the header, which is how the recursion below is phrased.  pandas (with
`names=` given) skips fully blank lines, and `on_bad_lines="warn"` drops rows
with more fields than column names. -/

/-- `_read_badc_csv(raw, sep=sep)`, with `raw` already split into lines
(without trailing newlines) and `sep` the one-character separator. -/
def read_badc_csv (sep : Char) : List String → Except PyErr DataFrame
  | [] => .error (.valueError "'data' marker not found")
  | line :: rest =>
    if pyLower (pyStrip line) = "data" then
      match rest with
      | [] => .error .stopIteration
      | header :: body =>
        let names := (pySplit sep header).map (fun c => pyLower (pyStrip c))
        let kept := body.filter (fun l => l ≠ "")
        let parsed := (kept.map (fun l => pySplit sep l)).filter
          (fun r => r.length ≤ names.length)
        .ok ⟨names, parsed.dropLast⟩
    else read_badc_csv sep rest

/-! ## `MidasSession.get_csv` (session.py) -/

/-- The transport-level outcome of one `self._session.get(url, ...)` attempt. -/
inductive AttemptResult where
  /-- A `requests.exceptions.RequestException` (connection error, timeout)
  raised by the GET itself. -/
  | exc
  /-- A completed HTTP response with its status code and body lines. -/
  | resp (status : Nat) (lines : List String)
deriving DecidableEq, Repr

/-- How a `get_csv` call terminates. -/
inductive CsvOutcome where
  /-- Normal return of a `DataFrame`. -/
  | ok (df : DataFrame)
  /-- The final `raise` after retry exhaustion
  (`requests.exceptions.RequestException`, including `HTTPError` from
  `raise_for_status`). -/
  | transportError
  /-- A non-transport Python exception (e.g. the `ValueError` from
  `_read_badc_csv`, which is not caught by the retry loop). -/
  | pyError (e : PyErr)
deriving DecidableEq, Repr

/-- Trace of the `while attempt < max_retries` loop of `get_csv`: outcome,
number of GET requests issued, and the `time.sleep` backoff delays. -/
structure LoopTrace where
  outcome : CsvOutcome
  requests : Nat
  sleeps : List ℚ
deriving DecidableEq, Repr

/-- The retry loop of `get_csv`.  `transport i` is the result of the GET on
iteration `i` (counting from 0).  Statuses 404 and 500 return an empty frame
immediately; `raise_for_status` turns any other status ≥ 400 into an
`HTTPError`, which — being a `RequestException` — is caught and retried like
a connection error.  After incrementing `attempt`, the loop re-raises when
`attempt >= max_retries` and otherwise sleeps
`backoff_factor * 2 ** (attempt - 1)` (the exponent is the pre-increment
attempt index).

The loop is phrased by structural recursion on the number of remaining
iterations `fuel = max_retries - attempt` (so that concrete runs evaluate
inside the kernel): the loop guard `attempt < max_retries` fails exactly
when `fuel = 0`, and the re-raise guard `attempt + 1 >= max_retries` holds
exactly when the new remaining count `fuel - 1` is `0`. -/
def getCsvGo (transport : Nat → AttemptResult) (sep : Char) (backoff : ℚ) :
    Nat → Nat → LoopTrace
  | _, 0 => ⟨.ok ⟨[], []⟩, 0, []⟩
  | attempt, fuel + 1 =>
    match transport attempt with
    | .resp status lines =>
      if status = 404 ∨ status = 500 then ⟨.ok ⟨[], []⟩, 1, []⟩
      else if 400 ≤ status then
        if fuel = 0 then ⟨.transportError, 1, []⟩
        else
          let rest := getCsvGo transport sep backoff (attempt + 1) fuel
          ⟨rest.outcome, 1 + rest.requests, backoff * 2 ^ attempt :: rest.sleeps⟩
      else
        match read_badc_csv sep lines with
        | .ok df => ⟨.ok df, 1, []⟩
        | .error e => ⟨.pyError e, 1, []⟩
    | .exc =>
      if fuel = 0 then ⟨.transportError, 1, []⟩
      else
        let rest := getCsvGo transport sep backoff (attempt + 1) fuel
        ⟨rest.outcome, 1 + rest.requests, backoff * 2 ^ attempt :: rest.sleeps⟩

/-- The `while attempt < max_retries` loop entered at the given attempt
index. -/
def getCsvLoop (transport : Nat → AttemptResult) (sep : Char) (maxRetries : Int)
    (backoff : ℚ) (attempt : Nat) : LoopTrace :=
  getCsvGo transport sep backoff attempt (maxRetries - attempt).toNat

/-- Python truthiness of an optional string (`None` and `""` are falsy). -/
def truthy : Option String → Bool
  | none => false
  | some s => s ≠ ""

/-- `MidasSession` instance state: `self.email`, `self.password`,
`self._token`. -/
structure MidasSessionSt where
  email : Option String
  password : Option String
  _token : Option String
deriving DecidableEq, Repr

/-- Result of the `_refresh_token` POST to the token endpoint: either the
`access_token` string from the JSON body, or a raised exception. -/
inductive AuthResult where
  | ok (tok : String)
  | fail
deriving DecidableEq, Repr

/-- Full trace of a `get_csv` call, including the token-exchange POST that the
`self.token` property may perform while the bearer header is built. -/
structure CallTrace where
  outcome : CsvOutcome
  authRequests : Nat
  requests : Nat
  sleeps : List ℚ
deriving DecidableEq, Repr

/-- `get_csv(self, url, ...)`.  Building
the bearer `Authorization` header evaluates the `token`
property: a cached truthy `_token` is used as is, otherwise `_refresh_token`
performs one POST to the auth endpoint (and its failure propagates out of
`get_csv` before any GET is attempted).  The loop itself is `getCsvLoop`. -/
def get_csv (s : MidasSessionSt) (auth : AuthResult) (transport : Nat → AttemptResult)
    (sep : Char) (maxRetries : Int) (backoff : ℚ) : CallTrace :=
  if truthy s._token then
    let t := getCsvLoop transport sep maxRetries backoff 0
    ⟨t.outcome, 0, t.requests, t.sleeps⟩
  else
    match auth with
    | .fail => ⟨.pyError .authError, 1, 0, []⟩
    | .ok _ =>
      let t := getCsvLoop transport sep maxRetries backoff 0
      ⟨t.outcome, 1, t.requests, t.sleeps⟩

/-! ## `MidasSession.__init__` (session.py)

```python
self.email = email or os.getenv("CEDA_USER")
self.password = password or os.getenv("CEDA_PASS")
self._token = os.getenv("CEDA_TOKEN")
if not self.token and (not self.user or not self.password):
    raise RuntimeError("EMAIL or CEDA_PWD missing")
```

`self.token` is the property `self._token or self._refresh_token()`, so when
no token is cached the *constructor itself* performs the token-exchange POST;
and `self.user` is not an attribute of the class (the attribute is
`self.email`), so reaching it raises `AttributeError`. -/

/-- How `MidasSession.__init__` terminates. -/
inductive InitOutcome where
  /-- Construction succeeded with the given final instance state. -/
  | ok (s : MidasSessionSt)
  /-- The intended `RuntimeError("EMAIL or CEDA_PWD missing")`. -/
  | raisedRuntime
  /-- `AttributeError` from evaluating the nonexistent `self.user`. -/
  | raisedAttr
  /-- The exception from the `_refresh_token` POST propagated. -/
  | raisedAuth
deriving DecidableEq, Repr

/-- Trace of `MidasSession.__init__`: its outcome and how many HTTP requests
(token-exchange POSTs) it performed. -/
structure InitTrace where
  outcome : InitOutcome
  authRequests : Nat
deriving DecidableEq, Repr

/-- Python `a or b` on optional strings. -/
def pyOrElse (a b : Option String) : Option String :=
  if truthy a then a else b

/-- `MidasSession(email, password)` with environment variables `CEDA_USER`,
`CEDA_PASS`, `CEDA_TOKEN` and the token endpoint's behaviour `auth`. -/
def MidasSession_init (email password envUser envPass envToken : Option String)
    (auth : AuthResult) : InitTrace :=
  let emailV := pyOrElse email envUser
  let passwordV := pyOrElse password envPass
  let tok0 := envToken
  if truthy tok0 then
    -- `not self.token` is false: the conjunction short-circuits, no raise.
    ⟨.ok ⟨emailV, passwordV, tok0⟩, 0⟩
  else
    -- the `token` property finds `_token` falsy and calls `_refresh_token`,
    -- which POSTs to the auth endpoint with Basic base64(email:password).
    match auth with
    | .fail => ⟨.raisedAuth, 1⟩
    | .ok t =>
      if t ≠ "" then ⟨.ok ⟨emailV, passwordV, some t⟩, 1⟩
      else
        -- `not self.token` is true; evaluating `self.user` raises.
        ⟨.raisedAttr, 1⟩

/-! ## `midas_client/midas.py` — data model

`midas.py` threads a `MidasSession` through `_fetch_meta`,
`download_station_year` and `download_locations`, and all three call
`session.get_csv(...)`.  `get_csv`, however, is a module-level function of
`session.py` (its `def` is at column 0; the `MidasSession` class body ends
at the `token` property), so each of those attribute accesses raises
`AttributeError`.  The types below model what the functions touch before
that point: the configuration surface, the module-level `_META_CACHE`
(holding parsed metadata tables), and the run trace — network fetches, the
`rows` defaultdict and the datasets handed to the output writer — which the
theorems prove stays empty. -/

/-- One station-metadata row, with the numeric columns
`src_id, station_latitude, station_longitude, first_year, last_year` already
parsed plus the `historic_county` and `station_file_name` strings read by
`download_station_year`. -/
structure MetaRow where
  src_id : Int
  station_latitude : ℚ
  station_longitude : ℚ
  first_year : Int
  last_year : Int
  historic_county : String
  station_file_name : String
deriving DecidableEq, Repr

/-- The content of the archive, resolved per URL: `meta url` is the parsed
station-metadata table served at a metadata URL (`[]` for an empty frame),
`obs url` the observation frame served at a station-year URL.  It is
threaded through the `midas.py` functions the way the source threads
`session`, but no run ever reads it: the `session.get_csv` attribute lookup
raises before any request could be made. -/
structure Net where
  meta : String → List MetaRow
  obs : String → DataFrame

/-- One network fetch through the archive, as it would be recorded in the
run trace: a station-metadata fetch, or a station-year observation fetch
(tagged with the table, station and year it was issued for).  No `midas.py`
function ever records one — the `AttributeError` precedes every request —
and the theorems state that the trace stays empty. -/
inductive Fetch where
  | meta (url : String)
  | obs (tbl : String) (src : Int) (yr : Int) (url : String)
deriving DecidableEq, Repr

/-- One entry of the `rows` defaultdict of `download_locations`, keyed by
`(loc_id, year)`: the `loc_id` and `year` values plus the
`src_id_<tbl> -> station` entries in insertion order. -/
structure RowRec where
  loc_id : String
  year : Int
  srcs : List (String × Int)
deriving DecidableEq, Repr

/-- One row of the `loc_df` query-point frame: `loc_id`, `lat`, `long`. -/
structure Loc where
  loc_id : String
  lat : ℚ
  long : ℚ
deriving DecidableEq, Repr

/-- The mutable state threaded through a run: the module-level `_META_CACHE`
(an insertion-ordered dict, keyed by metadata URL), the trace of network
fetches, the `rows` defaultdict (insertion-ordered, keyed by
`(loc_id, year)`), and the datasets handed to the output writer as
`(table, year, rows)` triples. -/
structure St where
  cache : List (String × List MetaRow)
  log : List Fetch
  rowsAcc : List ((String × Int) × RowRec)
  writes : List (String × Int × List (List String))
deriving DecidableEq, Repr

/-- The configuration surface consumed from `settings`: the
`midas.tables` name → slug mapping, `midas.version`, the `midas.columns`
per-table column subsets, and `cache_format`. -/
structure Settings where
  tables : List (String × String)
  version : String
  columns : List (String × List String)
  cache_format : String
deriving DecidableEq, Repr

/-- `_BASE_URL`. -/
def BASE_URL : String := "https://dap.ceda.ac.uk/badc/ukmo-midas-open/data"

/-- The metadata URL built (identically) by `_fetch_meta` and by
`download_locations`:
`{base}/{slug}/dataset-version-{ver}/midas-open_{slug}_dv-{ver}_station-metadata.csv`. -/
def metaUrlOf (ver slug : String) : String :=
  BASE_URL ++ "/" ++ slug ++ "/dataset-version-" ++ ver ++ "/" ++
    "midas-open_" ++ slug ++ "_dv-" ++ ver ++ "_station-metadata.csv"

/-- The station-year data URL built by `download_station_year` (built and
bound to `data_url` before the failing `session.get_csv` lookup). -/
def dataUrlOf (ver slug county src fname : String) (yr : Int) : String :=
  BASE_URL ++ "/" ++ slug ++ "/dataset-version-" ++ ver ++ "/" ++
    county ++ "/" ++ src ++ "_" ++ fname ++ "/qc-version-1/" ++
    "midas-open_" ++ slug ++ "_dv-" ++ ver ++ "_" ++ county ++ "_" ++
    src ++ "_" ++ fname ++ "_qcv-1_" ++ toString yr ++ ".csv"

/-- The keys of the module-level `_OUTPUT_FUNC` format-dispatch dict (the
dict itself is never consulted: no run reaches a write). -/
def OUTPUT_FORMATS : List String := ["csv", "parquet", "json", "excel"]

/-! ## `_fetch_meta` and `download_station_year` (midas.py) -/

set_option linter.unusedVariables false in
/-- `_fetch_meta(session, tbl)`: build the metadata URL from
`settings.midas.tables[tbl]` (a `KeyError` if the table is unknown) and
serve from `_META_CACHE` when the URL is cached.  On a cache miss the source
evaluates `session.get_csv` (midas.py line 65) — an `AttributeError`, since
`get_csv` is not an attribute of `MidasSession` — so the network fetch, the
empty-frame `RuntimeError` and the memoization write
`_META_CACHE[meta_url] = meta_df` are all unreachable, and the state comes
back untouched.  (`net` mirrors the `session` argument; it is never
consulted.) -/
def fetch_meta (s : Settings) (net : Net) (tbl : String) (st : St) :
    Except PyErr (List MetaRow) × St :=
  match s.tables.lookup tbl with
  | none => (.error (.keyError tbl), st)
  | some slug =>
    let url := metaUrlOf s.version slug
    match st.cache.lookup url with
    | some cached => (.ok cached, st)
    | none => (.error (.attributeError "get_csv"), st)

/-- `cols = columns or settings.midas.columns[table]`: the passed list when
it is truthy (non-empty), otherwise the configured subset for the table
(`none` when that lookup would raise `KeyError`). -/
def effectiveCols (s : Settings) (tbl : String) (columns : Option (List String)) :
    Option (List String) :=
  match columns with
  | some cs => if cs.isEmpty then s.columns.lookup tbl else some cs
  | none => s.columns.lookup tbl

/-- `download_station_year(table, station_id, year, columns=..., session=...)`:
check the table is configured, resolve the effective column subset, obtain
metadata through `_fetch_meta` (only a pre-seeded `_META_CACHE` entry can be
served — see `fetch_meta`), check the frame non-empty, locate the station
row (`meta.set_index("src_id").loc[int(station_id)]`), build the station-year
URL — and then evaluate `session.get_csv` (midas.py line 107), an
`AttributeError`.  No observation is ever downloaded and no branch returns
`.ok`. -/
def download_station_year (s : Settings) (net : Net) (tbl : String) (src : Int)
    (yr : Int) (columns : Option (List String)) (st : St) :
    Except PyErr DataFrame × St :=
  if (s.tables.lookup tbl).isNone then (.error (.keyError tbl), st) else
  match effectiveCols s tbl columns with
  | none => (.error (.keyError tbl), st)
  | some _cols =>
    match fetch_meta s net tbl st with
    | (.error e, st1) => (.error e, st1)
    | (.ok meta, st1) =>
      if meta.isEmpty then
        (.error (.runtimeError "Could not download station metadata"), st1)
      else
        match meta.find? (fun r => r.src_id == src) with
        | none => (.error (.keyError (toString src)), st1)
        | some row =>
          match s.tables.lookup tbl with
          | none => (.error (.keyError tbl), st1)
          | some slug =>
            let _data_url := dataUrlOf s.version slug row.historic_county
              (toString src) row.station_file_name yr
            (.error (.attributeError "get_csv"), st1)

/-! ## `download_locations` (midas.py)

The bulk entry point.  Before its table loop the source defaults the
`tables` argument (`tables = tables or list(settings.midas.tables)`), builds
the `loc_df` query-point frame and raises `ValueError` when it is empty.
The first iteration of `for tbl in tables` resolves
`settings.midas.tables[tbl]` (a `KeyError` for an unknown table), builds the
metadata URL, and evaluates `session.get_csv` — an `AttributeError` that
aborts the call before any network traffic, any BallTree construction, any
`rows` entry and any write.  With an empty table list the loop body never
runs, `rows` stays empty, and
`pd.DataFrame([]).sort_values(["loc_id", "year"])` raises a `KeyError`. -/

/-- The distance function abstracting BallTree with the haversine metric
over `np.deg2rad`-converted coordinates.  Kept as a parameter mirroring the
inputs of the source; no run reaches a point where it could be consulted. -/
def DistFn : Type := (ℚ × ℚ) → (ℚ × ℚ) → ℚ

set_option linter.unusedVariables false in
/-- `download_locations(locations, years=..., tables=..., columns_per_table=...,
k=..., session=..., out_dir=...)`.  `cache0` is the content of the
module-level `_META_CACHE` when the call starts; the returned state carries
the (unchanged) cache, the (empty) fetch trace, the (empty) `rows`
accumulator and the (empty) list of written datasets.  Branches, in source
order: an empty `locations` raises `ValueError`; with a non-empty
(defaulted) table list the first iteration raises `KeyError` on an unknown
table and otherwise `AttributeError` at `session.get_csv(meta_url)`; with an
empty table list the final `sort_values` raises `KeyError` on the absent
`loc_id` column.  (`net`, `dist`, `years`, `colsCfg` and `k` mirror the
arguments of the source; no reachable branch consults them.) -/
def download_locations (s : Settings) (net : Net) (dist : DistFn)
    (locs : List Loc) (years : List Int) (tables : List String)
    (colsCfg : List (String × List String)) (k : Nat)
    (cache0 : List (String × List MetaRow)) :
    Except PyErr (List RowRec) × St :=
  let st0 : St := ⟨cache0, [], [], []⟩
  let tables := if tables.isEmpty then s.tables.map Prod.fst else tables
  if locs.isEmpty then
    (.error (.valueError "locations is empty - nothing to download."), st0)
  else
    match tables with
    | [] => (.error (.keyError "loc_id"), st0)
    | tbl :: _ =>
      match s.tables.lookup tbl with
      | none => (.error (.keyError tbl), st0)
      | some _slug => (.error (.attributeError "get_csv"), st0)

/-! ## Transport-layer lemmas and claims -/

/-- The retry loop, entered with `fuel` remaining iterations and a transport
failing on every attempt it will reach, raises after issuing `fuel` GETs. -/
theorem getCsvGo_allExc (tr : Nat → AttemptResult) (sep : Char) (backoff : ℚ) :
    ∀ (fuel attempt : Nat), 0 < fuel →
      (∀ i, i < attempt + fuel → tr i = .exc) →
      (getCsvGo tr sep backoff attempt fuel).outcome = .transportError ∧
      (getCsvGo tr sep backoff attempt fuel).requests = fuel := by
  intro fuel
  induction fuel with
  | zero => intro attempt h _; omega
  | succ f ih =>
    intro attempt _ hall
    have hexc : tr attempt = .exc := hall attempt (by omega)
    rw [getCsvGo, hexc]
    cases f with
    | zero => simp
    | succ f' =>
      have hrest := ih (attempt + 1) (by omega) (fun i hi => hall i (by omega))
      rw [if_neg (Nat.succ_ne_zero f')]
      refine ⟨hrest.1, ?_⟩
      simp only [hrest.2]
      omega

/-- C3: for every URL, a `get_csv` call whose HTTP response has status 404
("resource not found") or 500 ("server error") returns a valid empty
(zero-row) table, issuing exactly one GET, with no retry sleeps and no
raised error. -/
theorem claim3_empty_on_404_500 (s : MidasSessionSt) (auth : AuthResult)
    (transport : Nat → AttemptResult) (sep : Char) (maxRetries : Int)
    (backoff : ℚ) (status : Nat) (lines : List String)
    (hauth : truthy s._token = true ∨ auth ≠ .fail)
    (hresp : transport 0 = .resp status lines)
    (hstatus : status = 404 ∨ status = 500)
    (hmr : 1 ≤ maxRetries) :
    (get_csv s auth transport sep maxRetries backoff).outcome = .ok ⟨[], []⟩ ∧
    (get_csv s auth transport sep maxRetries backoff).requests = 1 ∧
    (get_csv s auth transport sep maxRetries backoff).sleeps = [] := by
  have hloop : getCsvLoop transport sep maxRetries backoff 0 = ⟨.ok ⟨[], []⟩, 1, []⟩ := by
    rw [getCsvLoop]
    obtain ⟨f, hf⟩ : ∃ f, (maxRetries - (0 : Nat)).toNat = f + 1 := by
      refine ⟨(maxRetries - (0 : Nat)).toNat - 1, ?_⟩
      omega
    rw [hf, getCsvGo, hresp]
    simp [hstatus]
  rcases hauth with htok | hne
  · simp [get_csv, htok, hloop]
  · cases auth with
    | fail => exact absurd rfl hne
    | ok t =>
      by_cases htok : truthy s._token <;> simp [get_csv, htok, hloop]

/-- C4: with the default retry count (3) and any base delay, a transport that
fails transiently on the first two attempts and succeeds on the third makes
`get_csv` succeed after exactly 3 attempts, sleeping twice with delays
`backoff * 2^0` then `backoff * 2^1` (the doubling schedule); and a transport
failing on all attempts of any positive retry budget `n` makes `get_csv`
raise the transport error after exactly `n` attempts. -/
theorem claim4_retry_backoff (s : MidasSessionSt) (auth : AuthResult)
    (transport : Nat → AttemptResult) (sep : Char) (backoff : ℚ)
    (lines : List String) (df : DataFrame)
    (hauth : truthy s._token = true ∨ auth ≠ .fail)
    (h0 : transport 0 = .exc) (h1 : transport 1 = .exc)
    (h2 : transport 2 = .resp 200 lines)
    (hparse : read_badc_csv sep lines = .ok df) :
    ((get_csv s auth transport sep 3 backoff).outcome = .ok df ∧
     (get_csv s auth transport sep 3 backoff).requests = 3 ∧
     (get_csv s auth transport sep 3 backoff).sleeps
        = [backoff * 2 ^ 0, backoff * 2 ^ 1]) ∧
    ∀ (tr : Nat → AttemptResult) (n : Nat), 0 < n → (∀ i, i < n → tr i = .exc) →
      (get_csv s auth tr sep (n : Int) backoff).outcome = .transportError ∧
      (get_csv s auth tr sep (n : Int) backoff).requests = n := by
  have hloop2 : getCsvGo transport sep backoff 2 1 = ⟨.ok df, 1, []⟩ := by
    rw [getCsvGo, h2]
    simp [hparse]
  have hloop1 : getCsvGo transport sep backoff 1 2
      = ⟨.ok df, 2, [backoff * 2 ^ 1]⟩ := by
    rw [getCsvGo, h1]
    simp [hloop2]
  have hloop0 : getCsvLoop transport sep 3 backoff 0
      = ⟨.ok df, 3, [backoff * 2 ^ 0, backoff * 2 ^ 1]⟩ := by
    rw [getCsvLoop]
    have h3 : ((3 : Int) - (0 : Nat)).toNat = 3 := by decide
    rw [h3, getCsvGo, h0]
    simp [hloop1]
  constructor
  · rcases hauth with htok | hne
    · simp [get_csv, htok, hloop0]
    · cases auth with
      | fail => exact absurd rfl hne
      | ok t =>
        by_cases htok : truthy s._token <;> simp [get_csv, htok, hloop0]
  · intro tr n hn hall
    have hres : (getCsvLoop tr sep (n : Int) backoff 0).outcome = .transportError ∧
        (getCsvLoop tr sep (n : Int) backoff 0).requests = n := by
      have hn' : (((n : Int)) - ((0 : Nat) : Int)).toNat = n := by omega
      rw [getCsvLoop, hn']
      exact getCsvGo_allExc tr sep backoff n 0 hn (fun i hi => hall i (by omega))
    rcases hauth with htok | hne
    · simp [get_csv, htok, hres.1, hres.2]
    · cases auth with
      | fail => exact absurd rfl hne
      | ok t =>
        by_cases htok : truthy s._token <;>
          simp [get_csv, htok, hres.1, hres.2]

/-- Closed-form witness transport for the retry claims. -/
def witnessTransport : Nat → AttemptResult
  | 0 => .exc
  | 1 => .exc
  | _ => .resp 200 ["x", "data", "a,b", "1,2", "end data"]

/-- Witness for C4: the concrete transport that fails twice and then serves a
well-formed BADC file satisfies the theorem's hypotheses, and the claimed
trace follows by applying the theorem. -/
theorem claim4_witness :
    ((get_csv ⟨none, none, some "T"⟩ .fail witnessTransport ',' 3 1).outcome
        = .ok ⟨["a", "b"], [["1", "2"]]⟩ ∧
     (get_csv ⟨none, none, some "T"⟩ .fail witnessTransport ',' 3 1).requests = 3 ∧
     (get_csv ⟨none, none, some "T"⟩ .fail witnessTransport ',' 3 1).sleeps
        = [1 * 2 ^ 0, 1 * 2 ^ 1]) ∧
    ∀ (tr : Nat → AttemptResult) (n : Nat), 0 < n → (∀ i, i < n → tr i = .exc) →
      (get_csv ⟨none, none, some "T"⟩ .fail tr ',' (n : Int) 1).outcome
          = .transportError ∧
      (get_csv ⟨none, none, some "T"⟩ .fail tr ',' (n : Int) 1).requests = n :=
  claim4_retry_backoff ⟨none, none, some "T"⟩ .fail witnessTransport ','
    1 ["x", "data", "a,b", "1,2", "end data"] ⟨["a", "b"], [["1", "2"]]⟩
    (Or.inl (by decide)) (by decide) (by decide) (by decide) (by rfl)

/-- Witness for C3: a first-attempt 404 response yields the empty frame with
one request and no sleeps. -/
theorem claim3_witness :
    (get_csv ⟨none, none, some "T"⟩ .fail (fun _ => .resp 404 []) ',' 3 1).outcome
        = .ok ⟨[], []⟩ ∧
    (get_csv ⟨none, none, some "T"⟩ .fail (fun _ => .resp 404 []) ',' 3 1).requests = 1 ∧
    (get_csv ⟨none, none, some "T"⟩ .fail (fun _ => .resp 404 []) ',' 3 1).sleeps = [] :=
  claim3_empty_on_404_500 ⟨none, none, some "T"⟩ .fail (fun _ => .resp 404 []) ',' 3 1
    404 [] (Or.inl (by decide)) rfl (Or.inl rfl) (by decide)

/-- C5: an archive text made of a free-text preamble, a marker line whose
trimmed lower-cased content is `"data"`, a header line, `N` well-formed
non-blank data rows and one trailing footer row decodes to exactly the `N`
data rows, with column names lower-cased and whitespace-trimmed from the
header. -/
theorem claim5_dialect_roundtrip (sep : Char) (preamble datarows : List String)
    (marker header footer : String)
    (hpre : ∀ l ∈ preamble, pyLower (pyStrip l) ≠ "data")
    (hmark : pyLower (pyStrip marker) = "data")
    (hdata : ∀ l ∈ datarows, l ≠ "" ∧
      (pySplit sep l).length ≤ (pySplit sep header).length)
    (hfootNe : footer ≠ "")
    (hfootLen : (pySplit sep footer).length ≤ (pySplit sep header).length) :
    read_badc_csv sep (preamble ++ marker :: header :: (datarows ++ [footer]))
      = .ok ⟨(pySplit sep header).map (fun c => pyLower (pyStrip c)),
             datarows.map (pySplit sep)⟩ := by
  induction preamble with
  | nil =>
    rw [List.nil_append, read_badc_csv, if_pos hmark]
    have hkept : List.filter (fun l => decide (l ≠ "")) (datarows ++ [footer])
        = datarows ++ [footer] := by
      rw [List.filter_eq_self]
      intro a ha
      rcases List.mem_append.mp ha with h | h
      · simpa using (hdata a h).1
      · simp only [List.mem_singleton] at h
        subst h
        simpa using hfootNe
    have hparsed : List.filter
        (fun r => decide (r.length ≤ ((pySplit sep header).map
          (fun c => pyLower (pyStrip c))).length))
        (List.map (fun l => pySplit sep l) (datarows ++ [footer]))
        = List.map (fun l => pySplit sep l) (datarows ++ [footer]) := by
      rw [List.filter_eq_self]
      intro r hr
      rcases List.mem_map.mp hr with ⟨l, hl, rfl⟩
      rcases List.mem_append.mp hl with h | h
      · simpa [List.length_map] using (hdata l h).2
      · simp only [List.mem_singleton] at h
        subst h
        simpa [List.length_map] using hfootLen
    simp only [hkept, hparsed]
    simp [List.map_append]
  | cons a pre ih =>
    have ha : pyLower (pyStrip a) ≠ "data" := hpre a (List.mem_cons_self a pre)
    have hstep : read_badc_csv sep
        (a :: (pre ++ marker :: header :: (datarows ++ [footer])))
        = read_badc_csv sep (pre ++ marker :: header :: (datarows ++ [footer])) := by
      rw [read_badc_csv.eq_def]
      simp [ha]
    rw [List.cons_append, hstep]
    exact ih (fun l hl => hpre l (List.mem_cons_of_mem a hl))

/-- Witness for C5: a concrete five-line archive with two data rows decodes
to those two rows with trimmed, lower-cased column names. -/
theorem claim5_witness :
    read_badc_csv ','
      (["preamble text", "more preamble"] ++ " Data " :: " ID , Air_Temp" ::
        (["7,1", "7,2"] ++ ["end data"]))
      = .ok ⟨["id", "air_temp"], [["7", "1"], ["7", "2"]]⟩ := by
  have h := claim5_dialect_roundtrip ',' ["preamble text", "more preamble"]
    ["7,1", "7,2"] " Data " " ID , Air_Temp" "end data"
    (by decide) (by decide) (by decide) (by decide) (by decide)
  simpa using h

/-- C9 (evaluating the code at the claim's failing input): constructing
`MidasSession` with no pre-issued token and missing principal/secret does
*not* fail with the intended configuration `RuntimeError`; instead the
constructor itself performs one token-exchange POST (whatever the endpoint
then answers), contradicting the claim that construction fails immediately
without any authentication exchange. -/
theorem claim9_init_performs_auth_exchange :
    ∀ auth : AuthResult,
      (MidasSession_init none none none none none auth).authRequests = 1 ∧
      (MidasSession_init none none none none none auth).outcome
        ≠ .raisedRuntime := by
  intro auth
  cases auth with
  | fail => exact ⟨rfl, by decide⟩
  | ok t =>
    by_cases h : t = "" <;>
      simp [MidasSession_init, pyOrElse, truthy, h]

/-- C10 counterexample: at `max_retries = 0`, with no cached token, `get_csv`
does return the empty frame and issues no GET, but an HTTP request *is*
issued — the token-exchange POST performed while the bearer header is built —
so the claim "no HTTP request is issued at all" is false on this input. -/
theorem claim10_counterexample :
    (get_csv ⟨none, none, none⟩ (.ok "T") (fun _ => .exc) ',' 0 1).outcome
        = .ok ⟨[], []⟩ ∧
    (get_csv ⟨none, none, none⟩ (.ok "T") (fun _ => .exc) ',' 0 1).requests = 0 ∧
    ¬ ((get_csv ⟨none, none, none⟩ (.ok "T") (fun _ => .exc) ',' 0 1).authRequests
        + (get_csv ⟨none, none, none⟩ (.ok "T") (fun _ => .exc) ',' 0 1).requests
        = 0) := by
  refine ⟨by decide, by decide, by decide⟩

/-- C10 (amended): for every `get_csv` call with `max_retries ≤ 0`, no GET
request for the URL is issued, no backoff sleep happens, and — provided the
bearer token is obtainable (cached, or the token exchange succeeds) — the
call returns an empty (zero-row) table; the only HTTP request that may be
issued is the single token-exchange POST when no token is cached. -/
theorem claim10_amended_no_data_request (s : MidasSessionSt) (auth : AuthResult)
    (transport : Nat → AttemptResult) (sep : Char) (maxRetries : Int)
    (backoff : ℚ)
    (hmr : maxRetries ≤ 0)
    (hauth : truthy s._token = true ∨ auth ≠ .fail) :
    (get_csv s auth transport sep maxRetries backoff).outcome = .ok ⟨[], []⟩ ∧
    (get_csv s auth transport sep maxRetries backoff).requests = 0 ∧
    (get_csv s auth transport sep maxRetries backoff).sleeps = [] ∧
    (get_csv s auth transport sep maxRetries backoff).authRequests
      = (if truthy s._token then 0 else 1) := by
  have hloop : getCsvLoop transport sep maxRetries backoff 0 = ⟨.ok ⟨[], []⟩, 0, []⟩ := by
    rw [getCsvLoop]
    have h0 : (maxRetries - ((0 : Nat) : Int)).toNat = 0 := by omega
    rw [h0]
    rfl
  rcases hauth with htok | hne
  · simp [get_csv, htok, hloop]
  · cases auth with
    | fail => exact absurd rfl hne
    | ok t =>
      by_cases htok : truthy s._token <;> simp [get_csv, htok, hloop]

/-- Witness for the amended C10: a session with a cached token and
`max_retries = 0` returns the empty frame with zero GETs, zero sleeps and
zero auth requests. -/
theorem claim10_witness :
    (get_csv ⟨none, none, some "T"⟩ .fail (fun _ => .exc) ',' 0 1).outcome
        = .ok ⟨[], []⟩ ∧
    (get_csv ⟨none, none, some "T"⟩ .fail (fun _ => .exc) ',' 0 1).requests = 0 ∧
    (get_csv ⟨none, none, some "T"⟩ .fail (fun _ => .exc) ',' 0 1).sleeps = [] ∧
    (get_csv ⟨none, none, some "T"⟩ .fail (fun _ => .exc) ',' 0 1).authRequests
      = (if truthy (some "T") then 0 else 1) :=
  claim10_amended_no_data_request ⟨none, none, some "T"⟩ .fail (fun _ => .exc) ',' 0 1
    (by decide) (Or.inl (by decide))

/-! ## The `midas.py` orchestration claims (C1, C2, C6, C7, C8)

These claims describe deduplicated station-year fetching, temporally
filtered nearest-station selection, concatenated tagged writes, metadata
memoization and the consolidated output map.  None of that behaviour is
reachable in the source: every `session.get_csv(...)` attribute access
raises `AttributeError` (see the header), so every `download_locations` run
aborts before performing a single network fetch, recording a single
nearest-station assignment or handing a single dataset to the writer, and
`_fetch_meta` can neither fetch metadata nor populate `_META_CACHE`.  The
lemma below settles all branches at once. -/

/-- Every `download_locations` call returns an exception with the run state
untouched: an empty `locations` raises `ValueError`; a non-empty (defaulted)
table list hits `KeyError` (unknown table) or the `AttributeError` at
`session.get_csv(meta_url)`; an empty table list hits the final `KeyError`
of `sort_values`. -/
theorem download_locations_crash (s : Settings) (net : Net) (dist : DistFn)
    (locs : List Loc) (years : List Int) (tables : List String)
    (colsCfg : List (String × List String)) (k : Nat)
    (cache0 : List (String × List MetaRow)) :
    ∃ e, download_locations s net dist locs years tables colsCfg k cache0
      = (.error e, ⟨cache0, [], [], []⟩) := by
  unfold download_locations
  dsimp only
  split
  · exact ⟨_, rfl⟩
  · split
    · exact ⟨_, rfl⟩
    · split <;> exact ⟨_, rfl⟩

/-- **C1** (code bug).  The claim has every `(table, year)` pair of a run
performing exactly one station-year fetch per distinct winning station,
never one per query point.  In the source `download_locations` performs no
station-year fetch — indeed no network fetch — at all: `get_csv` is a
module-level function of `session.py`, not a `MidasSession` method, so the
run aborts at its first `session.get_csv(meta_url)` (or at an earlier
`ValueError`/`KeyError`).  The fetch trace of every run is empty and no run
returns a result. -/
theorem claim1_no_station_year_fetch (s : Settings) (net : Net) (dist : DistFn)
    (locs : List Loc) (years : List Int) (tables : List String)
    (colsCfg : List (String × List String)) (k : Nat)
    (cache0 : List (String × List MetaRow)) :
    (download_locations s net dist locs years tables colsCfg k cache0).2.log = [] ∧
    (download_locations s net dist locs years tables colsCfg k cache0).1.isOk = false := by
  obtain ⟨e, he⟩ :=
    download_locations_crash s net dist locs years tables colsCfg k cache0
  rw [he]
  exact ⟨rfl, rfl⟩

/-- **C2** (code bug).  The claim constrains which station a run may select
as nearest for a query point and year (only stations whose service interval
covers the year).  In the source no nearest-station selection ever happens:
the `AttributeError` at the metadata fetch precedes every temporal filter
and BallTree query, so the `rows` accumulator of every run stays empty and
no run returns a result. -/
theorem claim2_no_nearest_selection (s : Settings) (net : Net) (dist : DistFn)
    (locs : List Loc) (years : List Int) (tables : List String)
    (colsCfg : List (String × List String)) (k : Nat)
    (cache0 : List (String × List MetaRow)) :
    (download_locations s net dist locs years tables colsCfg k cache0).2.rowsAcc = [] ∧
    (download_locations s net dist locs years tables colsCfg k cache0).1.isOk = false := by
  obtain ⟨e, he⟩ :=
    download_locations_crash s net dist locs years tables colsCfg k cache0
  rw [he]
  exact ⟨rfl, rfl⟩

/-- **C6** (code bug).  The claim describes the dataset handed to the output
writer for a `(table, year)` pair (the tagged concatenation of the
non-empty station-year fetches).  In the source nothing is ever handed to
the writer: every run aborts at the metadata fetch before any station-year
download, so `frames` is never built and the `_OUTPUT_FUNC` dispatch is
never invoked. -/
theorem claim6_no_write (s : Settings) (net : Net) (dist : DistFn)
    (locs : List Loc) (years : List Int) (tables : List String)
    (colsCfg : List (String × List String)) (k : Nat)
    (cache0 : List (String × List MetaRow)) :
    (download_locations s net dist locs years tables colsCfg k cache0).2.writes = [] ∧
    (download_locations s net dist locs years tables colsCfg k cache0).1.isOk = false := by
  obtain ⟨e, he⟩ :=
    download_locations_crash s net dist locs years tables colsCfg k cache0
  rw [he]
  exact ⟨rfl, rfl⟩

/-- **C7** (code bug).  The claim has station metadata fetched over the
network at most once per fully-resolved URL, with every later retrieval
served from `_META_CACHE`.  In the source no metadata is ever fetched over
the network and the memoization write `_META_CACHE[meta_url] = meta_df` is
unreachable: whenever the URL of a configured table misses the cache,
`_fetch_meta` raises `AttributeError` at `session.get_csv(meta_url)` and
returns the state — cache, fetch trace and all — untouched.
(`download_locations` does not even consult the cache: it crashes at its own
direct `session.get_csv(meta_url)` call, midas.py line 168.) -/
theorem claim7_meta_fetch_unreachable (s : Settings) (net : Net) (tbl : String)
    (st : St) (slug : String) (hslug : s.tables.lookup tbl = some slug)
    (hmiss : st.cache.lookup (metaUrlOf s.version slug) = none) :
    fetch_meta s net tbl st = (.error (.attributeError "get_csv"), st) := by
  unfold fetch_meta
  rw [hslug]
  dsimp only
  rw [hmiss]

/-- Concrete configuration for the C7 witness: one configured table `t1`
with slug `s1`. -/
def w7S : Settings := ⟨[("t1", "s1")], "v", [("t1", ["c"])], "csv"⟩

/-- Archive content for the C7 witness (never consulted). -/
def w7Net : Net := ⟨fun _ => [], fun _ => ⟨[], []⟩⟩

/-- Initial state for the C7 witness: empty `_META_CACHE`, empty traces. -/
def w7St : St := ⟨[], [], [], []⟩

/-- Witness for C7: with an empty `_META_CACHE`, `_fetch_meta` on the
configured table raises `AttributeError` and leaves the state untouched. -/
theorem claim7_witness :
    fetch_meta w7S w7Net "t1" w7St = (.error (.attributeError "get_csv"), w7St) :=
  claim7_meta_fetch_unreachable w7S w7Net "t1" w7St "s1" (by rfl) (by rfl)

/-- **C8** (code bug).  The claim describes the shape of the returned
ConsolidatedMap (one row per point and year, one station column per
requested table, sorted).  No call to `download_locations` returns one:
every run raises — `ValueError` on empty locations, `KeyError` or the
`AttributeError` at the metadata fetch otherwise — so there is no output
whose shape could be checked. -/
theorem claim8_no_consolidated_map (s : Settings) (net : Net) (dist : DistFn)
    (locs : List Loc) (years : List Int) (tables : List String)
    (colsCfg : List (String × List String)) (k : Nat)
    (cache0 : List (String × List MetaRow)) :
    ∃ e, (download_locations s net dist locs years tables colsCfg k cache0).1
      = .error e := by
  obtain ⟨e, he⟩ :=
    download_locations_crash s net dist locs years tables colsCfg k cache0
  exact ⟨e, by rw [he]⟩

end MidasClient
